import Mathlib

/-!
A verification development of the fishhook symbol-rebinding library
(`src/fishhook.c`), under the `__LP64__` configuration (`sizeof(void *) = 8`,
`section_t = struct section_64`, and so on).

Modelling conventions (a shallow embedding):
* Pointers are natural numbers (`Ptr := Nat`).
* Process memory holding function-pointer slots and caller output slots is a
  word map `mem : Ptr → Ptr` (each address holds one pointer-sized value).
* Per-address page protection is a map `prot : Ptr → Nat` of `VM_PROT_*` /
  `PROT_*` bit masks (on this platform the two encodings share bit values,
  exactly as the translation loop in the source assumes).
* The symbol table, string table and indirect symbol table live in read-only
  link-edit memory that the code never writes; the model carries their
  contents directly (`symtab` as the list of `n_un.n_strx` fields of the
  `nlist_64` entries, `strtab` as its byte list, `indirect_symtab` as the
  list of `uint32_t` entries), while the address computations performed on
  them by `rebind_symbols_for_image` are embedded separately
  (`linkedit_base`, `symtab_addr`, `strtab_addr`, `indirect_symtab_addr`).
* `malloc`/`free` are driven by an explicit success oracle (`Heap.oks`) with
  a live-allocation counter, so allocation-failure paths are first-class.
-/

namespace Fishhook

/-- Pointer values (64-bit addresses, modelled as naturals). -/
abbrev Ptr := Nat

/-- Constant `INDIRECT_SYMBOL_ABS` from `<mach-o/loader.h>`. -/
def INDIRECT_SYMBOL_ABS : Nat := 0x40000000

/-- Constant `INDIRECT_SYMBOL_LOCAL` from `<mach-o/loader.h>`. -/
def INDIRECT_SYMBOL_LOCAL : Nat := 0x80000000

/-- Constant `SECTION_TYPE` mask from `<mach-o/loader.h>`. -/
def SECTION_TYPE : Nat := 0x000000ff

/-- Constant `S_NON_LAZY_SYMBOL_POINTERS` section type from `<mach-o/loader.h>`. -/
def S_NON_LAZY_SYMBOL_POINTERS : Nat := 0x6

/-- Constant `S_LAZY_SYMBOL_POINTERS` section type from `<mach-o/loader.h>`. -/
def S_LAZY_SYMBOL_POINTERS : Nat := 0x7

/-- Constant `VM_PROT_READ` from `<mach/vm_prot.h>`. -/
def VM_PROT_READ : Nat := 0x1

/-- Constant `VM_PROT_WRITE` from `<mach/vm_prot.h>`. -/
def VM_PROT_WRITE : Nat := 0x2

/-- Constant `VM_PROT_EXECUTE` from `<mach/vm_prot.h>`. -/
def VM_PROT_EXECUTE : Nat := 0x4

/-- Constant `PROT_READ` from `<sys/mman.h>`. -/
def PROT_READ : Nat := 0x1

/-- Constant `PROT_WRITE` from `<sys/mman.h>`. -/
def PROT_WRITE : Nat := 0x2

/-- Constant `PROT_EXEC` from `<sys/mman.h>`. -/
def PROT_EXEC : Nat := 0x4

/-- Segment name `SEG_DATA` = `"__DATA"`. -/
def SEG_DATA : String := "__DATA"

/-- Segment name `SEG_DATA_CONST` = `"__DATA_CONST"` (fishhook.c line 54). -/
def SEG_DATA_CONST : String := "__DATA_CONST"

/-- Segment name `SEG_LINKEDIT` = `"__LINKEDIT"`. -/
def SEG_LINKEDIT : String := "__LINKEDIT"

/-- Value of `sizeof(void *)` under `__LP64__`. -/
def ptrSize : Nat := 8

/-- One `struct rebinding` (declared in fishhook.h, used throughout
fishhook.c): registered symbol name (its C-string bytes, without the NUL and
without any leading underscore), the replacement function pointer, and the
address of the caller's output slot (`void **replaced`), `none` for `NULL`. -/
structure rebinding where
  name : List Nat
  replacement : Ptr
  replaced : Option Ptr
deriving DecidableEq, Repr

/-- One `struct rebindings_entry`'s payload: the copied `rebindings` array
(`rebindings_nel` is its length). -/
abbrev rebindings_entry := List rebinding

/-- The chain of `rebindings_entry` nodes linked through `next`; the head of
the list is the head of the chain (the newest batch). -/
abbrev RebindChain := List rebindings_entry

/-- Structure `section_t` (= `struct section_64` under `__LP64__`): the fields
fishhook.c reads. -/
structure section_t where
  sectname : String
  segname : String
  addr : Nat
  size : Nat
  flags : Nat
  reserved1 : Nat
deriving DecidableEq, Repr

/-- The mutable machine state the patcher touches: pointer-sized memory words
and per-address page protection masks. -/
structure MachState where
  mem : Ptr → Ptr
  prot : Ptr → Nat

/-- Store one pointer-sized value at an address. -/
def writeWord (st : MachState) (a v : Ptr) : MachState :=
  { st with mem := fun x => if x = a then v else st.mem x }

/-- Embeds `mprotect(addr, len, p)`: set the protection of every address in
`[addr, addr + len)` to `p`. -/
def mprotectRange (st : MachState) (addr len p : Nat) : MachState :=
  { st with prot := fun x => if addr ≤ x ∧ x < addr + len then p else st.prot x }

/-- Embeds `get_protection` (fishhook.c lines 88–108): `vm_region_64` on the
region containing `sectionStart` and return that region's `info.protection`.
The model assumes the query succeeds (`KERN_SUCCESS`); on failure the source
falls back to `VM_PROT_READ`. -/
def get_protection (st : MachState) (sectionStart : Ptr) : Nat :=
  st.prot sectionStart

/-- Read a byte of a table, 0 past the end (the code never reads past the end
of a well-formed table). -/
def byteAt (m : List Nat) (i : Nat) : Nat := m.getD i 0

/-- The bytes of the C string starting at offset `off` of `m` (up to, not
including, the first NUL byte). -/
def cstrFrom (m : List Nat) (off : Nat) : List Nat :=
  (m.drop off).takeWhile (fun b => b != 0)

/-- Test `symbol_name[0] && symbol_name[1]` where `symbol_name = strtab + off`
(fishhook.c line 179). -/
def symbol_name_longer_than_1 (strtab : List Nat) (off : Nat) : Bool :=
  byteAt strtab off != 0 && byteAt strtab (off + 1) != 0

/-- The match test of fishhook.c lines 185–186:
`symbol_name_longer_than_1 && strcmp(&symbol_name[1], rebindings[j].name) == 0`. -/
def name_matches (strtab : List Nat) (off : Nat) (r : rebinding) : Bool :=
  symbol_name_longer_than_1 strtab off && cstrFrom strtab (off + 1) == r.name

/-- The `while (cur) { for (j …) { … goto symbol_loop; } cur = cur->next; }`
search of fishhook.c lines 181–199: walk the chain from its head (the newest
batch), inside a batch walk the requests in their original order, and stop at
the first request whose name matches. -/
def find_first_match (rebindings : RebindChain) (strtab : List Nat) (off : Nat) :
    Option rebinding :=
  match rebindings with
  | [] => none
  | cur :: rest =>
    match cur.find? (name_matches strtab off) with
    | some r => some r
    | none => find_first_match rest strtab off

/-- Number of slots of a pointer-table section:
`section->size / sizeof(void *)` (fishhook.c line 166). -/
def slot_count (sect : section_t) : Nat := sect.size / ptrSize

/-- Address of slot `i`: `indirect_symbol_bindings = slide + section->addr`
and `indirect_symbol_bindings[i]` is `ptrSize` bytes further per index
(fishhook.c lines 159, 189–194). -/
def slot_addr (slide : Nat) (sect : section_t) (i : Nat) : Ptr :=
  slide + sect.addr + ptrSize * i

/-- One iteration of the slot loop of `perform_rebinding_with_section`
(fishhook.c lines 166–201): read the indirect-symbol-table entry at
`section->reserved1 + i`; skip the three sentinel values; otherwise resolve
the symbol name through the symbol table and string table, search the chain,
and on a match conditionally record the slot's current value in the request's
output slot and then overwrite the slot with the replacement. -/
def rebind_slot (rebindings : RebindChain) (symtab : List Nat) (strtab : List Nat)
    (indirect_symtab : List Nat) (sect : section_t) (slide : Nat) (i : Nat)
    (st : MachState) : MachState :=
  let symtab_index := indirect_symtab.getD (sect.reserved1 + i) 0
  if symtab_index = INDIRECT_SYMBOL_ABS ∨ symtab_index = INDIRECT_SYMBOL_LOCAL ∨
      symtab_index = (INDIRECT_SYMBOL_LOCAL ||| INDIRECT_SYMBOL_ABS) then
    st
  else
    let strtab_offset := symtab.getD symtab_index 0
    match find_first_match rebindings strtab strtab_offset with
    | none => st
    | some r =>
      let a := slot_addr slide sect i
      let st1 :=
        match r.replaced with
        | some outAddr =>
          if st.mem a ≠ r.replacement then writeWord st outAddr (st.mem a) else st
        | none => st
      writeWord st1 a r.replacement

/-- Embeds `perform_rebinding_with_section` (fishhook.c lines 110–215).
`rebindingsAddr` is the numeric value of the `rebindings` argument (the head
pointer of the chain); the source passes exactly that pointer to
`get_protection` on line 162. -/
def perform_rebinding_with_section (rebindings : RebindChain) (rebindingsAddr : Ptr)
    (sect : section_t) (slide : Nat) (symtab : List Nat) (strtab : List Nat)
    (indirect_symtab : List Nat) (st : MachState) : MachState :=
  let isDataConst := sect.segname == SEG_DATA_CONST
  let indirect_symbol_bindings := slide + sect.addr
  let oldProtection :=
    if isDataConst then get_protection st rebindingsAddr else VM_PROT_READ
  let st1 :=
    if isDataConst then
      mprotectRange st indirect_symbol_bindings sect.size (PROT_READ ||| PROT_WRITE)
    else st
  let st2 :=
    (List.range (slot_count sect)).foldl
      (fun s i => rebind_slot rebindings symtab strtab indirect_symtab sect slide i s)
      st1
  if isDataConst then
    let protection :=
      (if oldProtection &&& VM_PROT_READ ≠ 0 then PROT_READ else 0) |||
      (if oldProtection &&& VM_PROT_WRITE ≠ 0 then PROT_WRITE else 0) |||
      (if oldProtection &&& VM_PROT_EXECUTE ≠ 0 then PROT_EXEC else 0)
    mprotectRange st2 indirect_symbol_bindings sect.size protection
  else st2

/-- The fields of `segment_command_t` (= `struct segment_command_64`) that
fishhook.c reads, with the segment's section headers attached (the source
reads them at `cur + sizeof(segment_command_t)`, `nsects` of them). -/
structure segment_command_t where
  segname : String
  vmaddr : Nat
  fileoff : Nat
  sections : List section_t
deriving DecidableEq, Repr

/-- The fields of `struct symtab_command` that fishhook.c reads. -/
structure symtab_command where
  symoff : Nat
  stroff : Nat
deriving DecidableEq, Repr

/-- The fields of `struct dysymtab_command` that fishhook.c reads. -/
structure dysymtab_command where
  indirectsymoff : Nat
  nindirectsyms : Nat
deriving DecidableEq, Repr

/-- One load command, as discriminated by `cur_seg_cmd->cmd` in the walk of
fishhook.c lines 295–332 (`LC_SEGMENT_ARCH_DEPENDENT`, `LC_SYMTAB`,
`LC_DYSYMTAB`, anything else). -/
inductive load_command where
  | segment (seg : segment_command_t)
  | lc_symtab (c : symtab_command)
  | lc_dysymtab (c : dysymtab_command)
  | other
deriving DecidableEq, Repr

/-- One loaded Mach-O image as the code observes it: its load-command list,
whether `dladdr` recognises the header (fishhook.c line 236), and the contents
of the three link-edit tables the code reads through the addresses it computes
(`symtab` carried as the `n_un.n_strx` field of each `nlist_64` entry). -/
structure MachImage where
  load_commands : List load_command
  dladdr_ok : Bool
  symtab_data : List Nat
  strtab_data : List Nat
  indirect_symtab_data : List Nat
deriving DecidableEq, Repr

/-- Result of the first load-command walk (fishhook.c lines 295–332): each
assignment overwrites, so a later matching command wins, and a command left
`none` was absent. -/
structure FoundCommands where
  linkedit_segment : Option segment_command_t
  symtab_cmd : Option symtab_command
  dysymtab_cmd : Option dysymtab_command
deriving DecidableEq, Repr

/-- The first load-command walk of `rebind_symbols_for_image`: find the
`__LINKEDIT` segment command, the `LC_SYMTAB` command and the `LC_DYSYMTAB`
command. -/
def scan_load_commands (cmds : List load_command) : FoundCommands :=
  cmds.foldl
    (fun acc c =>
      match c with
      | .segment seg =>
        if seg.segname == SEG_LINKEDIT then { acc with linkedit_segment := some seg }
        else acc
      | .lc_symtab sc => { acc with symtab_cmd := some sc }
      | .lc_dysymtab dc => { acc with dysymtab_cmd := some dc }
      | .other => acc)
    ⟨none, none, none⟩

/-- Computation `linkedit_base = slide + linkedit_segment->vmaddr - linkedit_segment->fileoff`
(fishhook.c line 345; `uintptr_t` arithmetic, which never underflows for a
well-formed image, so natural subtraction is exact there). -/
def linkedit_base (slide : Nat) (linkedit_segment : segment_command_t) : Nat :=
  slide + linkedit_segment.vmaddr - linkedit_segment.fileoff

/-- Computation `symtab = linkedit_base + symtab_cmd->symoff` (fishhook.c line 348). -/
def symtab_addr (slide : Nat) (linkedit_segment : segment_command_t)
    (symtab_cmd : symtab_command) : Nat :=
  linkedit_base slide linkedit_segment + symtab_cmd.symoff

/-- Computation `strtab = linkedit_base + symtab_cmd->stroff` (fishhook.c line 351). -/
def strtab_addr (slide : Nat) (linkedit_segment : segment_command_t)
    (symtab_cmd : symtab_command) : Nat :=
  linkedit_base slide linkedit_segment + symtab_cmd.stroff

/-- Computation `indirect_symtab = linkedit_base + dysymtab_cmd->indirectsymoff`
(fishhook.c line 356). -/
def indirect_symtab_addr (slide : Nat) (linkedit_segment : segment_command_t)
    (dysymtab_cmd : dysymtab_command) : Nat :=
  linkedit_base slide linkedit_segment + dysymtab_cmd.indirectsymoff

/-- The second load-command walk (fishhook.c lines 359–389): for every
`__DATA` or `__DATA_CONST` segment, patch every section whose type is
`S_LAZY_SYMBOL_POINTERS` and every section whose type is
`S_NON_LAZY_SYMBOL_POINTERS`. -/
def patch_data_segments (rebindings : RebindChain) (rebindingsAddr : Ptr)
    (image : MachImage) (slide : Nat) (st : MachState) : MachState :=
  image.load_commands.foldl
    (fun s c =>
      match c with
      | .segment seg =>
        if seg.segname == SEG_DATA || seg.segname == SEG_DATA_CONST then
          seg.sections.foldl
            (fun s2 sect =>
              let s3 :=
                if sect.flags &&& SECTION_TYPE = S_LAZY_SYMBOL_POINTERS then
                  perform_rebinding_with_section rebindings rebindingsAddr sect slide
                    image.symtab_data image.strtab_data image.indirect_symtab_data s2
                else s2
              if sect.flags &&& SECTION_TYPE = S_NON_LAZY_SYMBOL_POINTERS then
                perform_rebinding_with_section rebindings rebindingsAddr sect slide
                  image.symtab_data image.strtab_data image.indirect_symtab_data s3
              else s3)
            s
        else s
      | _ => s)
    st

/-- Embeds `rebind_symbols_for_image` (fishhook.c lines 217–390): bail out if
`dladdr` fails; walk the load commands; return unchanged if the `__LINKEDIT`
segment, `LC_SYMTAB` or `LC_DYSYMTAB` command is missing or
`dysymtab_cmd->nindirectsyms` is zero; otherwise run the patcher over every
eligible section of the `__DATA` / `__DATA_CONST` segments. -/
def rebind_symbols_for_image (rebindings : RebindChain) (rebindingsAddr : Ptr)
    (image : MachImage) (slide : Nat) (st : MachState) : MachState :=
  if !image.dladdr_ok then st
  else
    let found := scan_load_commands image.load_commands
    match found.symtab_cmd, found.dysymtab_cmd, found.linkedit_segment with
    | some _, some dysymtab_cmd, some _ =>
      if dysymtab_cmd.nindirectsyms = 0 then st
      else patch_data_segments rebindings rebindingsAddr image slide st
    | _, _, _ => st

/-- Allocator state: `oks` answers successive `malloc` calls (an exhausted
oracle answers failure), `nextAddr` supplies fresh addresses, `live` counts
allocated and not yet freed blocks. -/
structure Heap where
  oks : List Bool
  nextAddr : Ptr
  live : Nat
deriving DecidableEq, Repr

/-- One `malloc` call: `none` models a `NULL` return. -/
def hmalloc (h : Heap) : Option Ptr × Heap :=
  match h.oks with
  | [] => (none, h)
  | ok :: rest =>
    if ok then
      (some h.nextAddr, { oks := rest, nextAddr := h.nextAddr + 1, live := h.live + 1 })
    else (none, { h with oks := rest })

/-- One `free` call; `free(NULL)` (`isNonNull = false`) is a no-op. -/
def hfree (h : Heap) (isNonNull : Bool) : Heap :=
  if isNonNull then { h with live := h.live - 1 } else h

/-- Embeds `prepend_rebindings` (fishhook.c lines 65–86): allocate the node, then the
copied request array (freeing the node and failing if that second allocation
fails), copy the requests, link the node at the head of the chain and report
the new head pointer. Returns `(retval, new chain, new head pointer value,
new heap)`; on failure the chain and head pointer are returned unchanged. -/
def prepend_rebindings (h : Heap) (rebindings_head : RebindChain) (headAddr : Ptr)
    (rebindings : rebindings_entry) : Int × RebindChain × Ptr × Heap :=
  match hmalloc h with
  | (none, h1) => (-1, rebindings_head, headAddr, h1)
  | (some entryAddr, h1) =>
    match hmalloc h1 with
    | (none, h2) => (-1, rebindings_head, headAddr, hfree h2 true)
    | (some _, h2) => (0, rebindings :: rebindings_head, entryAddr, h2)

/-- Whole-process state: the global `_rebindings_head` chain and the numeric
value of that pointer, the allocator, memory/protection, the loaded images
(with their slides) and whether the add-image callback is installed. -/
structure World where
  rebindings_head : RebindChain
  headAddr : Ptr
  heap : Heap
  mach : MachState
  images : List (MachImage × Nat)
  callback_registered : Bool

/-- Run `_rebind_symbols_for_image` (the registered callback, fishhook.c
lines 394–397) over every loaded image with the global chain. -/
def rebind_all_images (rebindings : RebindChain) (rebindingsAddr : Ptr)
    (images : List (MachImage × Nat)) (st : MachState) : MachState :=
  images.foldl (fun s p => rebind_symbols_for_image rebindings rebindingsAddr p.1 p.2 s) st

/-- Embeds `rebind_symbols` (fishhook.c lines 413–437): prepend to the global chain;
on failure return the negative status at once. On the first successful
registration install the add-image callback via
`_dyld_register_func_for_add_image`, which (per the loader's contract)
synchronously invokes the callback for every already-loaded image; on later
registrations walk `_dyld_image_count()` images directly. Either way every
currently loaded image is patched with the full chain. -/
def rebind_symbols (w : World) (rebindings : rebindings_entry) : Int × World :=
  let r := prepend_rebindings w.heap w.rebindings_head w.headAddr rebindings
  let retval := r.1
  if retval < 0 then (retval, { w with heap := r.2.2.2 })
  else
    let w1 := { w with rebindings_head := r.2.1, headAddr := r.2.2.1, heap := r.2.2.2 }
    if w1.rebindings_head.tail.isEmpty then
      (retval,
        { w1 with
          callback_registered := true,
          mach := rebind_all_images w1.rebindings_head w1.headAddr w1.images w1.mach })
    else
      (retval,
        { w1 with mach := rebind_all_images w1.rebindings_head w1.headAddr w1.images w1.mach })

/-- Embeds `rebind_symbols_image` (fishhook.c lines 399–411): build a private,
call-local chain (head starts out `NULL`, numeric value 0), run the per-image
pass with it, free the private node's request array and the node
(`free(NULL)` when allocation failed), and return `prepend_rebindings`'s
status. The global chain is never consulted or modified. -/
def rebind_symbols_image (w : World) (image : MachImage) (slide : Nat)
    (rebindings : rebindings_entry) : Int × World :=
  let r := prepend_rebindings w.heap [] 0 rebindings
  let retval := r.1
  let rebindings_head := r.2.1
  let st := rebind_symbols_for_image rebindings_head r.2.2.1 image slide w.mach
  let h2 :=
    if !rebindings_head.isEmpty then hfree (hfree r.2.2.2 true) true
    else hfree r.2.2.2 false
  (retval, { w with heap := h2, mach := st })

/-! Concrete fixtures: a one-slot non-lazy pointer table bound to symbol
`"_open"`, following the end-to-end scenario of the design document. -/

/-- Byte values of a text string (ASCII). -/
def strBytes (s : String) : List Nat := s.data.map Char.toNat

/-- A string table: offset 0 holds an empty name, offset 1 holds `"_open"`. -/
def ex_strtab : List Nat := 0 :: (strBytes "_open" ++ [0])

/-- A symbol table (`n_strx` per entry): entry 5 names string-table offset 1. -/
def ex_symtab : List Nat := [0, 0, 0, 0, 0, 1]

/-- An indirect symbol table with one entry: slot 0 resolves through symbol 5. -/
def ex_indirect : List Nat := [5]

/-- An indirect symbol table whose only entry is `INDIRECT_SYMBOL_ABS`. -/
def ex_indirect_abs : List Nat := [0x40000000]

/-- A one-slot (8-byte) non-lazy symbol pointer section of `__DATA`
at address 4096. -/
def ex_sect : section_t :=
  { sectname := "__got", segname := "__DATA", addr := 4096, size := 8,
    flags := 0x6, reserved1 := 0 }

/-- The same section placed in the `__DATA_CONST` segment. -/
def ex_sect_const : section_t :=
  { sectname := "__got", segname := "__DATA_CONST", addr := 4096, size := 8,
    flags := 0x6, reserved1 := 0 }

/-- Initial memory: the slot at 4096 holds the original function `F = 100`;
output slots (301, 302, 8000) and everything else hold 0. -/
def ex_mem0 : Ptr → Ptr := fun a => if a = 4096 then 100 else 0

/-- Initial protection: the heap word at 9000 (where the registry chain node
lives) is readable and writable (`VM_PROT_READ ||| VM_PROT_WRITE = 3`); all
other addresses — the `__DATA_CONST` section included — are read-only (1). -/
def ex_prot0 : Ptr → Nat := fun a => if a = 9000 then 3 else 1

/-- Initial machine state of the fixtures. -/
def ex_st0 : MachState := { mem := ex_mem0, prot := ex_prot0 }

/-- Request: rebind `"open"` to replacement 200, output slot at 8000. -/
def ex_req : rebinding := { name := strBytes "open", replacement := 200, replaced := some 8000 }

/-- Request of a first registration: replacement `R1 = 201`, output slot 301. -/
def ex_req1 : rebinding := { name := strBytes "open", replacement := 201, replaced := some 301 }

/-- Request of a second registration: replacement `R2 = 202`, output slot 302. -/
def ex_req2 : rebinding := { name := strBytes "open", replacement := 202, replaced := some 302 }

/-- An image with the three required load commands and one `__DATA` segment
holding `ex_sect`. -/
def ex_image : MachImage :=
  { load_commands :=
      [ .segment { segname := "__LINKEDIT", vmaddr := 0x5000, fileoff := 0x4000, sections := [] },
        .lc_symtab { symoff := 0x100, stroff := 0x200 },
        .lc_dysymtab { indirectsymoff := 0x300, nindirectsyms := 1 },
        .segment { segname := "__DATA", vmaddr := 0x1000, fileoff := 0x1000, sections := [ex_sect] } ],
    dladdr_ok := true,
    symtab_data := ex_symtab,
    strtab_data := ex_strtab,
    indirect_symtab_data := ex_indirect }

/-- An image whose load-command list has none of the three required commands. -/
def ex_image_missing : MachImage :=
  { load_commands := [.other], dladdr_ok := true,
    symtab_data := [], strtab_data := [], indirect_symtab_data := [] }

/-- The chain produced by registering `[ex_req]` through `prepend_rebindings`
with a heap whose two allocations succeed. -/
def ex_chain : RebindChain :=
  (prepend_rebindings { oks := [true, true], nextAddr := 50, live := 0 } [] 0 [ex_req]).2.1

/-- Scenario A run: patch `ex_image` (slide 0) with the registered chain. -/
def ex_run : MachState := rebind_symbols_for_image ex_chain 50 ex_image 0 ex_st0

/-- First pass: only `ex_req1` registered. -/
def ex_pass1 : MachState :=
  perform_rebinding_with_section [[ex_req1]] 9000 ex_sect 0 ex_symtab ex_strtab ex_indirect ex_st0

/-- Second pass after re-registering the same name with a different
replacement: the chain now has `[ex_req2]` in front of `[ex_req1]`. -/
def ex_pass2 : MachState :=
  perform_rebinding_with_section [[ex_req2], [ex_req1]] 9000 ex_sect 0 ex_symtab ex_strtab
    ex_indirect ex_pass1

/-- Same-replacement re-registration: both batches carry `ex_req1`. -/
def ex_pass2_same : MachState :=
  perform_rebinding_with_section [[ex_req1], [ex_req1]] 9000 ex_sect 0 ex_symtab ex_strtab
    ex_indirect ex_pass1

/-- A `__DATA_CONST` pass with the chain node at heap address 9000. -/
def ex_const_run : MachState :=
  perform_rebinding_with_section [[ex_req]] 9000 ex_sect_const 0 ex_symtab ex_strtab
    ex_indirect ex_st0

/-- A world whose next allocation fails (for the registration-failure claims). -/
def ex_world_alloc_fail : World :=
  { rebindings_head := [[ex_req]], headAddr := 40,
    heap := { oks := [false], nextAddr := 50, live := 3 },
    mach := ex_st0, images := [], callback_registered := true }

/-- A world whose second allocation fails (node obtained, request-array copy
refused). -/
def ex_world_alloc_fail2 : World :=
  { rebindings_head := [[ex_req1]], headAddr := 40,
    heap := { oks := [true, false], nextAddr := 50, live := 3 },
    mach := ex_st0, images := [], callback_registered := false }

/-- The `__LINKEDIT` segment command of `ex_image`. -/
def ex_linkedit : segment_command_t :=
  { segname := "__LINKEDIT", vmaddr := 0x5000, fileoff := 0x4000, sections := [] }

/-- The `LC_SYMTAB` command of `ex_image`. -/
def ex_symtab_cmd : symtab_command := { symoff := 0x100, stroff := 0x200 }

/-- The `LC_DYSYMTAB` command of `ex_image`. -/
def ex_dysymtab_cmd : dysymtab_command := { indirectsymoff := 0x300, nindirectsyms := 1 }

/-! Helper lemmas. -/

/-- A fold whose step never changes the `mem` field leaves `mem` unchanged. -/
theorem foldl_mem_inv {β : Type} (f : MachState → β → MachState)
    (h : ∀ s b, (f s b).mem = s.mem) (l : List β) (st : MachState) :
    (l.foldl f st).mem = st.mem := by
  induction l generalizing st with
  | nil => rfl
  | cons b t ih => rw [List.foldl_cons, ih, h]

/-- With an empty chain the slot loop body is the identity: the search finds
nothing and the slot is left untouched. -/
theorem rebind_slot_nil (symtab strtab indirect_symtab : List Nat) (sect : section_t)
    (slide i : Nat) (st : MachState) :
    rebind_slot [] symtab strtab indirect_symtab sect slide i st = st := by
  unfold rebind_slot
  dsimp only
  split <;> rfl

/-- With an empty chain `perform_rebinding_with_section` can only change
protections, never memory words. -/
theorem perform_rebinding_nil_mem (rebindingsAddr : Ptr) (sect : section_t) (slide : Nat)
    (symtab strtab indirect_symtab : List Nat) (st : MachState) :
    (perform_rebinding_with_section [] rebindingsAddr sect slide symtab strtab
        indirect_symtab st).mem = st.mem := by
  unfold perform_rebinding_with_section
  by_cases h : (sect.segname == SEG_DATA_CONST) = true
  · simp only [h, if_true]
    dsimp only [mprotectRange]
    rw [foldl_mem_inv _ (fun s b => by rw [rebind_slot_nil])]
  · simp only [h, Bool.false_eq_true, if_false]
    rw [foldl_mem_inv _ (fun s b => by rw [rebind_slot_nil])]

/-- With an empty chain the data-segment walk never changes memory words. -/
theorem patch_data_segments_nil_mem (rebindingsAddr : Ptr) (image : MachImage)
    (slide : Nat) (st : MachState) :
    (patch_data_segments [] rebindingsAddr image slide st).mem = st.mem := by
  unfold patch_data_segments
  apply foldl_mem_inv
  intro s c
  cases c with
  | segment seg =>
    simp only
    split
    · apply foldl_mem_inv
      intro s2 sect
      split <;> split <;> simp [perform_rebinding_nil_mem]
    · rfl
  | lc_symtab c => rfl
  | lc_dysymtab c => rfl
  | other => rfl

/-- With an empty chain the whole per-image pass never changes memory words. -/
theorem rebind_symbols_for_image_nil_mem (rebindingsAddr : Ptr) (image : MachImage)
    (slide : Nat) (st : MachState) :
    (rebind_symbols_for_image [] rebindingsAddr image slide st).mem = st.mem := by
  unfold rebind_symbols_for_image
  split
  · rfl
  · dsimp only
    split
    · split
      · rfl
      · exact patch_data_segments_nil_mem ..
    · rfl

/-- If one of the first two allocations fails, `prepend_rebindings` returns
`-1` and leaves the chain and the head pointer unchanged. -/
theorem prepend_rebindings_fail (h : Heap) (head : RebindChain) (a : Ptr)
    (batch : rebindings_entry)
    (hf : h.oks.getD 0 false = false ∨ h.oks.getD 1 false = false) :
    (prepend_rebindings h head a batch).1 = -1 ∧
    (prepend_rebindings h head a batch).2.1 = head ∧
    (prepend_rebindings h head a batch).2.2.1 = a := by
  obtain ⟨oks, na, lv⟩ := h
  match oks with
  | [] => simp [prepend_rebindings, hmalloc]
  | [b1] => cases b1 <;> simp_all [prepend_rebindings, hmalloc, hfree]
  | b1 :: b2 :: rest => cases b1 <;> cases b2 <;> simp_all [prepend_rebindings, hmalloc, hfree]

/-- If `prepend_rebindings` reports success, the new chain is the batch
prepended to the old chain. -/
theorem prepend_rebindings_success (h : Heap) (head : RebindChain) (a : Ptr)
    (batch : rebindings_entry)
    (hs : (prepend_rebindings h head a batch).1 = 0) :
    (prepend_rebindings h head a batch).2.1 = batch :: head := by
  obtain ⟨oks, na, lv⟩ := h
  match oks with
  | [] => simp [prepend_rebindings, hmalloc] at hs
  | [b1] => cases b1 <;> simp_all [prepend_rebindings, hmalloc, hfree]
  | b1 :: b2 :: rest => cases b1 <;> cases b2 <;> simp_all [prepend_rebindings, hmalloc, hfree]

/-- Shifting `byteAt` across a cons cell. -/
theorem byteAt_succ_cons (a : Nat) (t : List Nat) (n : Nat) :
    byteAt (a :: t) (n + 1) = byteAt t n := by
  simp [byteAt]

/-- Reading `byteAt` gives the first byte of the dropped suffix. -/
theorem byteAt_eq_drop (m : List Nat) (off : Nat) :
    byteAt m off = (m.drop off).getD 0 0 := by
  induction off generalizing m with
  | zero => rfl
  | succ n ih =>
    cases m with
    | nil => rfl
    | cons a t => rw [List.drop_succ_cons, byteAt_succ_cons, ih]

/-- A C string whose first byte is NUL is empty. -/
theorem cstrFrom_eq_nil (m : List Nat) (off : Nat) (h : byteAt m off = 0) :
    cstrFrom m off = [] := by
  unfold cstrFrom
  rcases hd : m.drop off with _ | ⟨b, rest⟩
  · rfl
  · have hb : b = 0 := by rw [byteAt_eq_drop, hd] at h; simpa using h
    subst hb
    simp

/-- A C string whose first byte is not NUL starts with that byte, followed by
the C string one offset further. -/
theorem cstrFrom_cons (m : List Nat) (off : Nat) (h : byteAt m off ≠ 0) :
    cstrFrom m off = byteAt m off :: cstrFrom m (off + 1) := by
  rcases hd : m.drop off with _ | ⟨b, rest⟩
  · exact absurd (by rw [byteAt_eq_drop, hd]; rfl) h
  · have hb : byteAt m off = b := by rw [byteAt_eq_drop, hd]; rfl
    have hrest : m.drop (off + 1) = rest := by
      rw [← List.drop_drop, hd]; rfl
    have hbne : (b != 0) = true := by
      simpa [bne] using (hb ▸ h)
    unfold cstrFrom
    rw [hd, hb, hrest]
    simp [List.takeWhile_cons, hbne]

/-- The resolved symbol name has at least two bytes exactly when its first two
bytes are both non-NUL (the test fishhook.c line 179 performs). -/
theorem two_le_cstrFrom_length (m : List Nat) (off : Nat) :
    2 ≤ (cstrFrom m off).length ↔ byteAt m off ≠ 0 ∧ byteAt m (off + 1) ≠ 0 := by
  constructor
  · intro h2
    by_cases h0 : byteAt m off = 0
    · rw [cstrFrom_eq_nil m off h0] at h2
      simp at h2
    · refine ⟨h0, ?_⟩
      by_cases h1 : byteAt m (off + 1) = 0
      · rw [cstrFrom_cons m off h0, cstrFrom_eq_nil m (off + 1) h1] at h2
        simp at h2
      · exact h1
  · rintro ⟨h0, h1⟩
    rw [cstrFrom_cons m off h0, cstrFrom_cons m (off + 1) h1]
    simp

/-- C5: the patcher's match test compares the resolved symbol name with its
first character stripped against the registered name (it accepts exactly when
the symbol name has at least two characters and the tail after the decoration
character equals the registered name), and a one-character symbol name never
matches any registered name. -/
theorem name_matches_strips_first_char (strtab : List Nat) (off : Nat) (r : rebinding) :
    (name_matches strtab off r = true ↔
      2 ≤ (cstrFrom strtab off).length ∧ (cstrFrom strtab off).drop 1 = r.name)
    ∧ ((cstrFrom strtab off).length = 1 → name_matches strtab off r = false) := by
  have hiff : name_matches strtab off r = true ↔
      (byteAt strtab off ≠ 0 ∧ byteAt strtab (off + 1) ≠ 0) ∧
        cstrFrom strtab (off + 1) = r.name := by
    simp [name_matches, symbol_name_longer_than_1, Bool.and_eq_true, and_assoc]
  have hmain : name_matches strtab off r = true ↔
      2 ≤ (cstrFrom strtab off).length ∧ (cstrFrom strtab off).drop 1 = r.name := by
    rw [hiff, ← two_le_cstrFrom_length]
    constructor
    · rintro ⟨h2, hname⟩
      have h0 : byteAt strtab off ≠ 0 := ((two_le_cstrFrom_length strtab off).1 h2).1
      refine ⟨h2, ?_⟩
      rw [cstrFrom_cons strtab off h0]
      simpa using hname
    · rintro ⟨h2, hname⟩
      have h0 : byteAt strtab off ≠ 0 := ((two_le_cstrFrom_length strtab off).1 h2).1
      refine ⟨h2, ?_⟩
      rw [cstrFrom_cons strtab off h0] at hname
      simpa using hname
  refine ⟨hmain, fun hlen => ?_⟩
  by_contra hmatch
  have : name_matches strtab off r = true := by
    cases hm : name_matches strtab off r
    · exact absurd hm hmatch
    · rfl
  have h2 := (hmain.1 this).1
  omega

/-- C5 witness: the symbol `"_open"` at string-table offset 1 matches the
registered name `"open"`. -/
theorem name_matches_strips_first_char_witness :
    name_matches ex_strtab 1 ex_req = true :=
  (name_matches_strips_first_char ex_strtab 1 ex_req).1.mpr (by decide)

/-- C1: the protection invariant fails on the code. Before the pass the
`__DATA_CONST` section at 4096 is read-only (`VM_PROT_READ = 1`) while the
heap word at 9000 — where the registry chain node lives — is read-write (3).
Because line 162 calls `get_protection(rebindings)` (the registry chain
pointer) instead of querying the section, the final `mprotect` reinstates the
heap region's flags: after the pass the segment's protection is 3, not its
original 1, so the read/write bits are not preserved. The last conjunct shows
the pass did patch the slot. -/
theorem data_const_protection_not_restored :
    get_protection ex_st0 4096 = 1 ∧
    get_protection ex_st0 9000 = 3 ∧
    ex_const_run.prot 4096 = 3 ∧
    ex_const_run.mem 4096 = 200 := by
  decide

/-- C4: end-to-end scenario A. Registering replacement 200 for name `"open"`
with output slot 8000 and patching an image whose non-lazy pointer table has
one slot (address 4096) bound to `"_open"` and holding original 100, leaves
the slot holding the replacement 200 and the output slot holding the
original 100. -/
theorem scenario_open_rebound :
    ex_run.mem 4096 = 200 ∧ ex_run.mem 8000 = 100 := by
  decide

/-- C2 counterexample: register `("open", R1 = 201, O1 = 301)` and patch, then
register `("open", R2 = 202, O2 = 302)` and patch again. The slot's pre-hook
original is 100, but after the second pass the winning (newest) request's
output slot 302 holds 201 — the previously installed replacement — because
the guard only compares the slot's value against the request's own
replacement. So the winning request's output slot does not hold the true
pre-hook original. -/
theorem output_slot_records_previous_replacement :
    ex_st0.mem 4096 = 100 ∧
    ex_pass1.mem 4096 = 201 ∧
    ex_pass2.mem 4096 = 202 ∧
    ex_pass2.mem 302 = 201 ∧
    (201 : Nat) ≠ 100 := by
  decide

/-- C6: a slot whose indirect-symbol-table entry is one of the three sentinel
values (`INDIRECT_SYMBOL_ABS`, `INDIRECT_SYMBOL_LOCAL`, or their union) is
skipped outright: whatever the registered chain is, the slot-loop iteration
returns the machine state unchanged, so the slot is never treated as a
symbol-table index, never matched, and never written. -/
theorem sentinel_slot_untouched (rebindings : RebindChain)
    (symtab strtab indirect_symtab : List Nat) (sect : section_t) (slide i : Nat)
    (st : MachState)
    (h : indirect_symtab.getD (sect.reserved1 + i) 0 = INDIRECT_SYMBOL_ABS ∨
         indirect_symtab.getD (sect.reserved1 + i) 0 = INDIRECT_SYMBOL_LOCAL ∨
         indirect_symtab.getD (sect.reserved1 + i) 0 =
           (INDIRECT_SYMBOL_LOCAL ||| INDIRECT_SYMBOL_ABS)) :
    rebind_slot rebindings symtab strtab indirect_symtab sect slide i st = st := by
  unfold rebind_slot
  dsimp only
  rw [if_pos h]

/-- C6 witness: with the registered chain `[[ex_req]]` and an indirect table
whose entry is `INDIRECT_SYMBOL_ABS`, the slot is left untouched. -/
theorem sentinel_slot_untouched_witness :
    rebind_slot [[ex_req]] ex_symtab ex_strtab ex_indirect_abs ex_sect 0 0 ex_st0 = ex_st0 :=
  sentinel_slot_untouched [[ex_req]] ex_symtab ex_strtab ex_indirect_abs ex_sect 0 0 ex_st0
    (by decide)

/-- C2 (amended): on a match whose request carries a non-null output slot
(distinct from the pointer-table slot itself), the patcher writes the slot's
current value into the output slot exactly when that value differs from the
request's own replacement pointer, and then installs the replacement in the
slot. (The original claim's consequence — that the winning request's output
slot always ends up holding the true pre-hook original — fails; see the
counterexample.) -/
theorem output_slot_write_guard (rebindings : RebindChain)
    (symtab strtab indirect_symtab : List Nat) (sect : section_t) (slide i : Nat)
    (st : MachState) (r : rebinding) (outAddr : Ptr)
    (hsent : ¬(indirect_symtab.getD (sect.reserved1 + i) 0 = INDIRECT_SYMBOL_ABS ∨
        indirect_symtab.getD (sect.reserved1 + i) 0 = INDIRECT_SYMBOL_LOCAL ∨
        indirect_symtab.getD (sect.reserved1 + i) 0 =
          (INDIRECT_SYMBOL_LOCAL ||| INDIRECT_SYMBOL_ABS)))
    (hfind : find_first_match rebindings strtab
        (symtab.getD (indirect_symtab.getD (sect.reserved1 + i) 0) 0) = some r)
    (hout : r.replaced = some outAddr)
    (hne : outAddr ≠ slot_addr slide sect i) :
    ((rebind_slot rebindings symtab strtab indirect_symtab sect slide i st).mem outAddr =
      if st.mem (slot_addr slide sect i) ≠ r.replacement
      then st.mem (slot_addr slide sect i) else st.mem outAddr) ∧
    (rebind_slot rebindings symtab strtab indirect_symtab sect slide i st).mem
      (slot_addr slide sect i) = r.replacement := by
  unfold rebind_slot
  dsimp only
  rw [if_neg hsent, hfind]
  dsimp only
  rw [hout]
  constructor <;> by_cases hm : st.mem (slot_addr slide sect i) = r.replacement <;>
    simp [writeWord, hne, hm]

/-- C2 witness: one slot holding 100, one matched request with replacement 201
and output slot 301: since 100 differs from 201, the output slot records 100
and the slot receives 201. -/
theorem output_slot_write_guard_witness :
    ((rebind_slot [[ex_req1]] ex_symtab ex_strtab ex_indirect ex_sect 0 0 ex_st0).mem 301 =
      if ex_st0.mem (slot_addr 0 ex_sect 0) ≠ ex_req1.replacement
      then ex_st0.mem (slot_addr 0 ex_sect 0) else ex_st0.mem 301) ∧
    (rebind_slot [[ex_req1]] ex_symtab ex_strtab ex_indirect ex_sect 0 0 ex_st0).mem
      (slot_addr 0 ex_sect 0) = ex_req1.replacement :=
  output_slot_write_guard [[ex_req1]] ex_symtab ex_strtab ex_indirect ex_sect 0 0 ex_st0
    ex_req1 301 (by decide) (by decide) rfl (by decide)

/-- C3: the per-slot lookup walks the registry chain newest batch first and
within a batch in the original order, taking the first request whose name
matches and stopping there — it equals a single first-match search over the
chain flattened in that order. And a successful `prepend_rebindings` places
the new batch at the head of the chain, so the newest registration is
scanned first. -/
theorem chain_lookup_newest_first (rebindings : RebindChain) (strtab : List Nat)
    (off : Nat) (h : Heap) (head : RebindChain) (a : Ptr) (batch : rebindings_entry)
    (hs : (prepend_rebindings h head a batch).1 = 0) :
    find_first_match rebindings strtab off =
      rebindings.flatten.find? (name_matches strtab off) ∧
    (prepend_rebindings h head a batch).2.1 = batch :: head := by
  refine ⟨?_, prepend_rebindings_success h head a batch hs⟩
  induction rebindings with
  | nil => rfl
  | cons cur rest ih =>
    cases hf : cur.find? (name_matches strtab off) <;>
      simp [find_first_match, hf, List.find?_append, ih]

/-- C3 witness: with two batches registered (newest `[ex_req2]` in front of
`[ex_req1]`), lookup returns the newest batch's request, and a successful
registration prepends its batch. -/
theorem chain_lookup_newest_first_witness :
    (find_first_match [[ex_req2], [ex_req1]] ex_strtab 1 =
      ([[ex_req2], [ex_req1]] : RebindChain).flatten.find? (name_matches ex_strtab 1)) ∧
    (prepend_rebindings { oks := [true, true], nextAddr := 50, live := 0 } [] 0
      [ex_req]).2.1 = [ex_req] :: [] :=
  chain_lookup_newest_first [[ex_req2], [ex_req1]] ex_strtab 1
    { oks := [true, true], nextAddr := 50, live := 0 } [] 0 [ex_req] (by decide)

/-- C7: an image whose load-command walk finds no `__LINKEDIT` segment, no
`LC_SYMTAB`, no `LC_DYSYMTAB`, or an indirect-symbol count of zero is skipped
entirely: the per-image pass returns the machine state unchanged (no
pointer-table slot is written, no protection is changed, no error is
raised). -/
theorem missing_load_commands_skip (rebindings : RebindChain) (rebindingsAddr : Ptr)
    (image : MachImage) (slide : Nat) (st : MachState)
    (h : (scan_load_commands image.load_commands).linkedit_segment = none ∨
         (scan_load_commands image.load_commands).symtab_cmd = none ∨
         (scan_load_commands image.load_commands).dysymtab_cmd = none ∨
         (scan_load_commands image.load_commands).dysymtab_cmd.map
           (fun c => c.nindirectsyms) = some 0) :
    rebind_symbols_for_image rebindings rebindingsAddr image slide st = st := by
  unfold rebind_symbols_for_image
  split
  · rfl
  · dsimp only
    rcases hsym : (scan_load_commands image.load_commands).symtab_cmd with _ | sc <;>
      rcases hdy : (scan_load_commands image.load_commands).dysymtab_cmd with _ | dc <;>
        rcases hlink : (scan_load_commands image.load_commands).linkedit_segment with _ | le <;>
          (simp only [hsym, hdy, hlink]; try rfl)
    have h0 : dc.nindirectsyms = 0 := by
      rcases h with h | h | h | h
      · rw [hlink] at h; cases h
      · rw [hsym] at h; cases h
      · rw [hdy] at h; cases h
      · rw [hdy] at h; simpa using h
    rw [if_pos h0]

/-- C7 witness: an image whose only load command is of an unrelated kind is
skipped without any state change. -/
theorem missing_load_commands_skip_witness :
    rebind_symbols_for_image [[ex_req]] 9000 ex_image_missing 0 ex_st0 = ex_st0 :=
  missing_load_commands_skip [[ex_req]] 9000 ex_image_missing 0 ex_st0 (by decide)

/-- Lemma: `prepend_rebindings` reporting failure leaves the chain unchanged. -/
theorem prepend_rebindings_neg (h : Heap) (head : RebindChain) (a : Ptr)
    (batch : rebindings_entry)
    (hn : (prepend_rebindings h head a batch).1 < 0) :
    (prepend_rebindings h head a batch).2.1 = head := by
  obtain ⟨oks, na, lv⟩ := h
  match oks with
  | [] => simp [prepend_rebindings, hmalloc]
  | [b1] => cases b1 <;> simp_all [prepend_rebindings, hmalloc, hfree]
  | b1 :: b2 :: rest => cases b1 <;> cases b2 <;> simp_all [prepend_rebindings, hmalloc, hfree]

/-- C8: if one of the two allocations of a registration fails, the
registration entry point `rebind_symbols` returns a negative status and the
global registry chain head is unchanged — previously registered batches
remain exactly as they were and no batch is added. -/
theorem alloc_failure_registry_unchanged (w : World) (batch : rebindings_entry)
    (hf : w.heap.oks.getD 0 false = false ∨ w.heap.oks.getD 1 false = false) :
    (rebind_symbols w batch).1 < 0 ∧
    (rebind_symbols w batch).2.rebindings_head = w.rebindings_head := by
  have hp := prepend_rebindings_fail w.heap w.rebindings_head w.headAddr batch hf
  unfold rebind_symbols
  dsimp only
  rw [hp.1, if_pos (by norm_num : (-1 : Int) < 0)]
  exact ⟨by norm_num, rfl⟩

/-- C8 witness: a world whose next allocation fails keeps its registered
chain `[[ex_req]]` intact and reports a negative status. -/
theorem alloc_failure_registry_unchanged_witness :
    (rebind_symbols ex_world_alloc_fail [ex_req]).1 < 0 ∧
    (rebind_symbols ex_world_alloc_fail [ex_req]).2.rebindings_head =
      ex_world_alloc_fail.rebindings_head :=
  alloc_failure_registry_unchanged ex_world_alloc_fail [ex_req] (Or.inl (by decide))

/-- C9: the link-edit base is `slide + vmaddr - fileoff` (exact integer
arithmetic whenever it does not underflow, as for a well-formed image); the
symbol table, string table and indirect symbol table are located at that base
plus their respective offsets; and a patched pointer table has
`section.size / pointerSize` slots with slot `i` at
`slide + section.addr + pointerSize * i`. -/
theorem linkedit_table_addresses (slide : Nat) (le : segment_command_t)
    (sc : symtab_command) (dc : dysymtab_command) (sect : section_t) (i : Nat)
    (h : le.fileoff ≤ slide + le.vmaddr) :
    ((linkedit_base slide le : Int) =
      (slide : Int) + (le.vmaddr : Int) - (le.fileoff : Int)) ∧
    symtab_addr slide le sc = linkedit_base slide le + sc.symoff ∧
    strtab_addr slide le sc = linkedit_base slide le + sc.stroff ∧
    indirect_symtab_addr slide le dc = linkedit_base slide le + dc.indirectsymoff ∧
    slot_count sect = sect.size / ptrSize ∧
    slot_addr slide sect i = slide + sect.addr + ptrSize * i := by
  refine ⟨?_, rfl, rfl, rfl, rfl, rfl⟩
  unfold linkedit_base
  omega

/-- C9 witness: the formulas at the fixture's `__LINKEDIT` segment
(`vmaddr = 0x5000`, `fileoff = 0x4000`, slide 0). -/
theorem linkedit_table_addresses_witness :
    (linkedit_base 0 ex_linkedit : Int) =
      ((0 : Nat) : Int) + (ex_linkedit.vmaddr : Int) - (ex_linkedit.fileoff : Int) :=
  (linkedit_table_addresses 0 ex_linkedit ex_symtab_cmd ex_dysymtab_cmd ex_sect 0
    (by decide)).1

/-- C10: `rebind_symbols_image` never touches the global registry chain; it
always frees its private batch (the live-allocation count is unchanged in
every case); and when its private allocation fails it returns a negative
status and the per-image pass runs with an empty chain, writing no
pointer-table slot. -/
theorem image_entry_alloc_failure (w : World) (image : MachImage) (slide : Nat)
    (batch : rebindings_entry) :
    (rebind_symbols_image w image slide batch).2.rebindings_head = w.rebindings_head ∧
    (rebind_symbols_image w image slide batch).2.heap.live = w.heap.live ∧
    ((prepend_rebindings w.heap [] 0 batch).1 < 0 →
      (rebind_symbols_image w image slide batch).1 < 0 ∧
      (rebind_symbols_image w image slide batch).2.mach.mem = w.mach.mem) := by
  refine ⟨rfl, ?_, fun hp => ⟨hp, ?_⟩⟩
  · obtain ⟨rh, ha, ⟨oks, na, lv⟩, mach, imgs, cb⟩ := w
    unfold rebind_symbols_image prepend_rebindings
    dsimp only
    match oks with
    | [] => simp [hmalloc, hfree]
    | [b1] => cases b1 <;> simp [hmalloc, hfree]
    | b1 :: b2 :: rest => cases b1 <;> cases b2 <;> simp [hmalloc, hfree]
  · have hchain := prepend_rebindings_neg w.heap [] 0 batch hp
    show (rebind_symbols_for_image (prepend_rebindings w.heap [] 0 batch).2.1
      (prepend_rebindings w.heap [] 0 batch).2.2.1 image slide w.mach).mem = w.mach.mem
    rw [hchain]
    exact rebind_symbols_for_image_nil_mem ..

/-- C10 witness: a world whose second allocation fails — the single-image
entry point returns a negative status, the global chain and live-allocation
count are unchanged, and memory words are untouched. -/
theorem image_entry_alloc_failure_witness :
    (rebind_symbols_image ex_world_alloc_fail2 ex_image 0 [ex_req]).2.rebindings_head =
      ex_world_alloc_fail2.rebindings_head ∧
    (rebind_symbols_image ex_world_alloc_fail2 ex_image 0 [ex_req]).2.heap.live =
      ex_world_alloc_fail2.heap.live ∧
    (rebind_symbols_image ex_world_alloc_fail2 ex_image 0 [ex_req]).1 < 0 ∧
    (rebind_symbols_image ex_world_alloc_fail2 ex_image 0 [ex_req]).2.mach.mem =
      ex_world_alloc_fail2.mach.mem := by
  have h := image_entry_alloc_failure ex_world_alloc_fail2 ex_image 0 [ex_req]
  exact ⟨h.1, h.2.1, (h.2.2 (by decide)).1, (h.2.2 (by decide)).2⟩

end Fishhook
